import Mathlib

/-!
Shallow embedding of the ashpd portal request layer: the wallpaper,
screenshot and file-chooser portal modules under `src/desktop/`, the
demo camera helper, and the spec-described request lifecycle engine
(response mapper, path resolver, single-slot subscription buffer) whose
code lives outside the provided sources.
-/

namespace Ashpd

/-- The library error taxonomy (spec §7): transport failures, user
cancellation, backend failure codes, decode failures of a success
payload, and builder parse errors. `ParseError` carries the static
message, as in `Error::ParseError(&'static str)`. -/
inductive Error where
  | Transport : Error
  | Cancelled : Error
  | Response : Nat → Error
  | ResponseError : Error
  | ParseError : String → Error
  deriving DecidableEq, Repr

/-- `SetOn` from `src/desktop/wallpaper.rs`: where to set the wallpaper. -/
inductive SetOn where
  | Lockscreen : SetOn
  | Background : SetOn
  | Both : SetOn
  deriving DecidableEq, Repr

/-- `impl fmt::Display for SetOn` (wallpaper.rs lines 65-73). -/
def SetOn.display : SetOn → String
  | .Lockscreen => "Lockscreen"
  | .Background => "Background"
  | .Both => "Both"

/-- `impl AsRef<str> for SetOn` (wallpaper.rs lines 75-83). -/
def SetOn.as_ref : SetOn → String
  | .Lockscreen => "Lockscreen"
  | .Background => "Background"
  | .Both => "Both"

/-- `impl From<SetOn> for &'static str` (wallpaper.rs lines 85-93). -/
def SetOn.into_static_str : SetOn → String
  | .Lockscreen => "Lockscreen"
  | .Background => "Background"
  | .Both => "Both"

/-- `impl FromStr for SetOn` (wallpaper.rs lines 95-106): a match on the
three literal strings, any other input yields `Error::ParseError`. -/
def SetOn.from_str (s : String) : Except Error SetOn :=
  if s = "Lockscreen" then .ok .Lockscreen
  else if s = "Background" then .ok .Background
  else if s = "Both" then .ok .Both
  else .error (.ParseError "Failed to parse SetOn, invalid value")

/-- A raw signal payload, as an opaque byte sequence. The completion
signal carries a numeric status and this structured body (spec §6). -/
abbrev Payload := List Nat

/-- Modelled from the spec: the Response Mapper of §4.4
(`map(status, payload) -> Result<T, PortalError>`, implemented in the
repository's request module, which is not among the provided sources).
Status 0 decodes the payload into `T` with the operation-supplied
decoder, a decode failure being the distinct `ResponseError`; status 1
is `Error::Cancelled` with the payload never decoded; status 2 is
`Error::Response` carrying the raw code. -/
def Response.map {T : Type} (decode : Payload → Option T)
    (status : Nat) (payload : Payload) : Except Error T :=
  if status = 0 then
    match decode payload with
    | some t => .ok t
    | none => .error .ResponseError
  else if status = 1 then
    .error .Cancelled
  else
    .error (.Response status)

/-- The fixed request-object path, `/org/freedesktop/portal/desktop`
plus the `request` segment, as a character list. -/
def requestBasePath : List Char :=
  "/org/freedesktop/portal/desktop/request".data

/-- Modelled from the spec: the sender sanitization of §4.2 (part of
the Request Path Resolver, implemented in the repository's request
module, which is not among the provided sources): take the connection's
unique bus identity, strip the leading colon, replace every `.` with
`_`. -/
def sanitize_sender (identity : List Char) : List Char :=
  let stripped := match identity with
    | ':' :: rest => rest
    | other => other
  stripped.map fun c => if c = '.' then '_' else c

/-- Modelled from the spec: `predict_path(connection_identity, token)`
of §4.2 (implemented in the repository's request module, which is not
among the provided sources): concatenate the fixed request-object path,
the sanitized sender identity and the token. -/
def predict_path (identity token : List Char) : List Char :=
  requestBasePath ++ ('/' :: (sanitize_sender identity ++ ('/' :: token)))

/-- Modelled from the spec: the single-slot result buffer of a
`PendingRequest` (§3, §4.3; implemented in the repository's request
module, which is not among the provided sources): empty, filled, or
consumed. -/
inductive Slot (α : Type) where
  | empty : Slot α
  | filled : α → Slot α
  | consumed : Slot α
  deriving DecidableEq, Repr

/-- Modelled from the spec: the signal handler writes the result into
the slot (§4.3). The buffer has capacity exactly one: only an empty
slot accepts a value. -/
def Slot.deliver {α : Type} : Slot α → α → Slot α
  | .empty, a => .filled a
  | s, _ => s

/-- Modelled from the spec: the waiter reads the slot (§4.3), taking a
filled value and marking the slot consumed, so that it is read at most
once. -/
def Slot.consume {α : Type} : Slot α → Option α × Slot α
  | .filled a => (some a, .consumed)
  | s => (none, s)

/-- A serialized bus value: the fragment of the zvariant data model the
portal calls use (strings, booleans, unsigned ints, byte arrays, file
descriptors, structs, arrays, and string-keyed dicts). -/
inductive Value where
  | str : String → Value
  | bool : Bool → Value
  | u32 : Nat → Value
  | bytes : List Nat → Value
  | fd : Nat → Value
  | arr : List Value → Value
  | tup : List Value → Value
  | dict : List (String × Value) → Value

/-- A handle token is an opaque path-safe string (spec §3). -/
abbrev HandleToken := String

/-- A window identifier is treated as an opaque string by this layer
(spec §3). -/
abbrev WindowIdentifier := String

/-- `SerializeDict` on an `Option` field: present in the dict exactly
when the value is `Some`. -/
def optEntry (name : String) : Option Value → List (String × Value)
  | some v => [(name, v)]
  | none => []

/-- `FilterType` from `src/desktop/file_chooser.rs` (lines 96-101),
serialized as a `u32` (`GlobPattern = 0`, `MimeType = 1`). -/
inductive FilterType where
  | GlobPattern : FilterType
  | MimeType : FilterType
  deriving DecidableEq, Repr

def FilterType.toU32 : FilterType → Nat
  | .GlobPattern => 0
  | .MimeType => 1

/-- `FileFilter(String, Vec<(FilterType, String)>)` from
`src/desktop/file_chooser.rs` (line 94). -/
structure FileFilter where
  label : String
  rules : List (FilterType × String)

def FileFilter.serialize (f : FileFilter) : Value :=
  .tup [.str f.label,
        .arr (f.rules.map fun r => .tup [.u32 r.1.toU32, .str r.2])]

/-- `Choice(String, String, Vec<(String, String)>, String)` from
`src/desktop/file_chooser.rs` (line 130). -/
structure Choice where
  id : String
  label : String
  entries : List (String × String)
  initial_selection : String

def Choice.serialize (c : Choice) : Value :=
  .tup [.str c.id, .str c.label,
        .arr (c.entries.map fun e => .tup [.str e.1, .str e.2]),
        .str c.initial_selection]

/-- `ScreenshotOptions` from `src/desktop/screenshot.rs` (lines 46-52). -/
structure ScreenshotOptions where
  handle_token : HandleToken
  modal : Option Bool
  interactive : Option Bool

/-- The `SerializeDict` serialization of `ScreenshotOptions`: one entry
per field in declaration order, `Option` fields only when present. -/
def ScreenshotOptions.serialize (o : ScreenshotOptions) : List (String × Value) :=
  [("handle_token", .str o.handle_token)]
    ++ optEntry "modal" (o.modal.map .bool)
    ++ optEntry "interactive" (o.interactive.map .bool)

/-- `ColorOptions` from `src/desktop/screenshot.rs` (lines 66-70). -/
structure ColorOptions where
  handle_token : HandleToken

def ColorOptions.serialize (o : ColorOptions) : List (String × Value) :=
  [("handle_token", .str o.handle_token)]

/-- `WallpaperOptions` from `src/desktop/wallpaper.rs` (lines 108-116);
the zvariant renames give the dict keys `show-preview` and `set-on`. -/
structure WallpaperOptions where
  handle_token : HandleToken
  show_preview : Option Bool
  set_on : Option SetOn

def WallpaperOptions.serialize (o : WallpaperOptions) : List (String × Value) :=
  [("handle_token", .str o.handle_token)]
    ++ optEntry "show-preview" (o.show_preview.map .bool)
    ++ optEntry "set-on" (o.set_on.map fun v => .str v.as_ref)

/-- `OpenFileOptions` from `src/desktop/file_chooser.rs` (lines 183-194). -/
structure OpenFileOptions where
  handle_token : HandleToken
  accept_label : Option String
  modal : Option Bool
  multiple : Option Bool
  directory : Option Bool
  filters : List FileFilter
  current_filter : Option FileFilter
  choices : List Choice

def OpenFileOptions.serialize (o : OpenFileOptions) : List (String × Value) :=
  [("handle_token", .str o.handle_token)]
    ++ optEntry "accept_label" (o.accept_label.map .str)
    ++ optEntry "modal" (o.modal.map .bool)
    ++ optEntry "multiple" (o.multiple.map .bool)
    ++ optEntry "directory" (o.directory.map .bool)
    ++ [("filters", .arr (o.filters.map FileFilter.serialize))]
    ++ optEntry "current_filter" (o.current_filter.map FileFilter.serialize)
    ++ [("choices", .arr (o.choices.map Choice.serialize))]

/-- `SaveFileOptions` from `src/desktop/file_chooser.rs` (lines 196-208).
The `current_folder` and `current_file` fields hold NUL-terminated byte
sequences. -/
structure SaveFileOptions where
  handle_token : HandleToken
  accept_label : Option String
  modal : Option Bool
  current_name : Option String
  current_folder : Option (List Nat)
  current_file : Option (List Nat)
  filters : List FileFilter
  current_filter : Option FileFilter
  choices : List Choice

def SaveFileOptions.serialize (o : SaveFileOptions) : List (String × Value) :=
  [("handle_token", .str o.handle_token)]
    ++ optEntry "accept_label" (o.accept_label.map .str)
    ++ optEntry "modal" (o.modal.map .bool)
    ++ optEntry "current_name" (o.current_name.map .str)
    ++ optEntry "current_folder" (o.current_folder.map .bytes)
    ++ optEntry "current_file" (o.current_file.map .bytes)
    ++ [("filters", .arr (o.filters.map FileFilter.serialize))]
    ++ optEntry "current_filter" (o.current_filter.map FileFilter.serialize)
    ++ [("choices", .arr (o.choices.map Choice.serialize))]

/-- `SaveFilesOptions` from `src/desktop/file_chooser.rs` (lines 210-219). -/
structure SaveFilesOptions where
  handle_token : HandleToken
  accept_label : Option String
  modal : Option Bool
  choices : List Choice
  current_folder : Option (List Nat)
  files : Option (List (List Nat))

def SaveFilesOptions.serialize (o : SaveFilesOptions) : List (String × Value) :=
  [("handle_token", .str o.handle_token)]
    ++ optEntry "accept_label" (o.accept_label.map .str)
    ++ optEntry "modal" (o.modal.map .bool)
    ++ [("choices", .arr (o.choices.map Choice.serialize))]
    ++ optEntry "current_folder" (o.current_folder.map .bytes)
    ++ optEntry "files" (o.files.map fun fs => .arr (fs.map .bytes))

/-- The argument tuple of `ScreenshotProxy::pick_color`
(`screenshot.rs` line 187): `&(&identifier, &options)`. -/
def pick_color_args (identifier : WindowIdentifier) (o : ColorOptions) :
    List Value :=
  [.str identifier, .dict o.serialize]

/-- The argument tuple of `ScreenshotProxy::screenshot`
(`screenshot.rs` line 219): `&(&identifier, &options)`. -/
def screenshot_args (identifier : WindowIdentifier) (o : ScreenshotOptions) :
    List Value :=
  [.str identifier, .dict o.serialize]

/-- The argument tuple of `WallpaperProxy::set_wallpaper_file`
(`wallpaper.rs` line 146): `&(&identifier, Fd::from(..), &options)`. -/
def set_wallpaper_file_args (identifier : WindowIdentifier) (fd : Nat)
    (o : WallpaperOptions) : List Value :=
  [.str identifier, .fd fd, .dict o.serialize]

/-- The argument tuple of `WallpaperProxy::set_wallpaper_uri`
(`wallpaper.rs` line 161): `&(&identifier, uri, &options)`. -/
def set_wallpaper_uri_args (identifier : WindowIdentifier) (uri : String)
    (o : WallpaperOptions) : List Value :=
  [.str identifier, .str uri, .dict o.serialize]

/-- The argument tuple of `FileChooserProxy::open_file`
(`file_chooser.rs` line 273): `&(&identifier, title, &options)`. -/
def open_file_args (identifier : WindowIdentifier) (title : String)
    (o : OpenFileOptions) : List Value :=
  [.str identifier, .str title, .dict o.serialize]

/-- The argument tuple of `FileChooserProxy::save_file`
(`file_chooser.rs` line 288): `&(&identifier, title, &options)`. -/
def save_file_args (identifier : WindowIdentifier) (title : String)
    (o : SaveFileOptions) : List Value :=
  [.str identifier, .str title, .dict o.serialize]

/-- The argument tuple of `FileChooserProxy::save_files`
(`file_chooser.rs` line 303): `&(&identifier, title, &options)`. -/
def save_files_args (identifier : WindowIdentifier) (title : String)
    (o : SaveFilesOptions) : List Value :=
  [.str identifier, .str title, .dict o.serialize]

/-- `ScreenshotRequest` from `src/desktop/screenshot.rs`
(lines 256-259). -/
structure ScreenshotRequest where
  options : ScreenshotOptions
  identifier : WindowIdentifier

/-- `ScreenshotRequest::set_identifier` (screenshot.rs lines 269-271). -/
def ScreenshotRequest.set_identifier (r : ScreenshotRequest)
    (identifier : WindowIdentifier) : ScreenshotRequest :=
  { r with identifier := identifier }

/-- `ScreenshotRequest::identifier` (screenshot.rs lines 264-267), the
chained by-value setter. -/
def ScreenshotRequest.identifier' (r : ScreenshotRequest)
    (identifier : WindowIdentifier) : ScreenshotRequest :=
  { r with identifier := identifier }

/-- `ScreenshotRequest::set_modal` (screenshot.rs lines 280-282). -/
def ScreenshotRequest.set_modal (r : ScreenshotRequest) (modal : Bool) :
    ScreenshotRequest :=
  { r with options := { r.options with modal := some modal } }

/-- `ScreenshotRequest::modal` (screenshot.rs lines 275-278). -/
def ScreenshotRequest.modal (r : ScreenshotRequest) (modal : Bool) :
    ScreenshotRequest :=
  r.set_modal modal

/-- `ScreenshotRequest::set_interactive` (screenshot.rs lines 292-294). -/
def ScreenshotRequest.set_interactive (r : ScreenshotRequest)
    (interactive : Bool) : ScreenshotRequest :=
  { r with options := { r.options with interactive := some interactive } }

/-- `ScreenshotRequest::interactive` (screenshot.rs lines 287-290). -/
def ScreenshotRequest.interactive (r : ScreenshotRequest)
    (interactive : Bool) : ScreenshotRequest :=
  r.set_interactive interactive

/-- `WallpaperRequest` from `src/desktop/wallpaper.rs` (lines 173-176). -/
structure WallpaperRequest where
  identifier : WindowIdentifier
  options : WallpaperOptions

/-- `WallpaperRequest::set_identifier` (wallpaper.rs lines 186-188). -/
def WallpaperRequest.set_identifier (r : WallpaperRequest)
    (identifier : WindowIdentifier) : WallpaperRequest :=
  { r with identifier := identifier }

/-- `WallpaperRequest::identifier` (wallpaper.rs lines 181-184), the
chained by-value setter. -/
def WallpaperRequest.identifier' (r : WallpaperRequest)
    (identifier : WindowIdentifier) : WallpaperRequest :=
  r.set_identifier identifier

/-- `WallpaperRequest::set_show_preview` (wallpaper.rs lines 199-201). -/
def WallpaperRequest.set_show_preview (r : WallpaperRequest)
    (show_preview : Bool) : WallpaperRequest :=
  { r with options := { r.options with show_preview := some show_preview } }

/-- `WallpaperRequest::show_preview` (wallpaper.rs lines 194-197). -/
def WallpaperRequest.show_preview (r : WallpaperRequest)
    (show_preview : Bool) : WallpaperRequest :=
  r.set_show_preview show_preview

/-- `WallpaperRequest::set_set_on` (wallpaper.rs lines 210-212). -/
def WallpaperRequest.set_set_on (r : WallpaperRequest) (v : SetOn) :
    WallpaperRequest :=
  { r with options := { r.options with set_on := some v } }

/-- `WallpaperRequest::set_on` (wallpaper.rs lines 205-208), the chained
by-value setter. -/
def WallpaperRequest.set_on (r : WallpaperRequest) (v : SetOn) :
    WallpaperRequest :=
  r.set_set_on v

/-- `SelectedFiles` from `src/desktop/file_chooser.rs` (lines 225-228):
the decoded response of the three file-chooser operations. -/
structure SelectedFiles where
  uris : List String
  choices : Option (List (String × String))

/-- `SelectedFiles::choices` (file_chooser.rs lines 237-239):
`self.choices.as_deref().unwrap_or_default()` — the decoded list when
present, the empty slice when absent. The `uris` accessor
(lines 232-234) returns the `uris` field as a slice, i.e. the field
projection itself. -/
def SelectedFiles.choices' (f : SelectedFiles) : List (String × String) :=
  f.choices.getD []

/-- `CString::new(bytes)` from the Rust standard library as used by the
path setters: fails when the input contains a NUL byte anywhere, and
otherwise yields the input bytes followed by a single appended NUL
terminator (`into_bytes_with_nul`). `none` models the failure that
`.expect(..)` turns into a panic. -/
def cstring_new (bytes : List Nat) : Option (List Nat) :=
  if 0 ∈ bytes then none else some (bytes ++ [0])

/-- `iter().map(..).collect()` over a fallible per-element step: the
first failure aborts the whole mapping. -/
def traverseOption {α β : Type} (f : α → Option β) : List α → Option (List β)
  | [] => some []
  | a :: as => (f a).bind fun b => (traverseOption f as).map fun bs => b :: bs

/-- `SaveFilesRequest` from `src/desktop/file_chooser.rs`
(lines 423-427). -/
structure SaveFilesRequest where
  identifier : WindowIdentifier
  title : String
  options : SaveFilesOptions

/-- `SaveFilesRequest::set_current_folder` (file_chooser.rs
lines 492-496): `CString::new(..).expect(..)` then store
`into_bytes_with_nul`; `none` models the panic. -/
def SaveFilesRequest.set_current_folder (r : SaveFilesRequest)
    (current_folder : List Nat) : Option SaveFilesRequest :=
  (cstring_new current_folder).map fun b =>
    { r with options := { r.options with current_folder := some b } }

/-- `SaveFilesRequest::set_files` (file_chooser.rs lines 505-516): each
path goes through `CString::new(..).expect(..)`; `none` models a panic
on any path. -/
def SaveFilesRequest.set_files (r : SaveFilesRequest)
    (files : List (List Nat)) : Option SaveFilesRequest :=
  (traverseOption cstring_new files).map fun bs =>
    { r with options := { r.options with files := some bs } }

/-- `SaveFileRequest` from `src/desktop/file_chooser.rs`
(lines 528-532). -/
structure SaveFileRequest where
  identifier : WindowIdentifier
  title : String
  options : SaveFileOptions

/-- `SaveFileRequest::set_current_folder` (file_chooser.rs
lines 598-602). -/
def SaveFileRequest.set_current_folder (r : SaveFileRequest)
    (current_folder : List Nat) : Option SaveFileRequest :=
  (cstring_new current_folder).map fun b =>
    { r with options := { r.options with current_folder := some b } }

/-- `SaveFileRequest::set_current_file` (file_chooser.rs
lines 611-615). -/
def SaveFileRequest.set_current_file (r : SaveFileRequest)
    (current_file : List Nat) : Option SaveFileRequest :=
  (cstring_new current_file).map fun b =>
    { r with options := { r.options with current_file := some b } }

/-- An event observed by the one-shot sender of
`pipewire_node_id` (`ashpd-demo/src/portals/desktop/camera.rs`
lines 132-153): either the registry callback fires with a matching
camera node id, or the blocking loop fails and the error branch runs. -/
inductive CameraEv where
  | cb : Nat → CameraEv
  | fail : CameraEv
  deriving DecidableEq, Repr

/-- The state shared between the blocking thread and the async side of
`pipewire_node_id`: the mutex-guarded `Option` holding the one-shot
sender (`some ()` while not yet taken), the value in flight on the
channel once sent, and a count of successful `send` calls. -/
structure OneshotState where
  sender : Option Unit
  channel : Option (Option Nat)
  sends : Nat

def OneshotState.init : OneshotState := ⟨some (), none, 0⟩

/-- One event against the shared state, as `camera.rs` does it: the
sender is taken out of the mutex-guarded `Option` before any send, so
an event finding the slot already empty does nothing; the callback
sends `Some(node_id)` and the error branch sends `None`. -/
def OneshotState.step (s : OneshotState) (e : CameraEv) : OneshotState :=
  match s.sender with
  | some _ =>
    match e with
    | .cb i => ⟨none, some (some i), s.sends + 1⟩
    | .fail => ⟨none, some none, s.sends + 1⟩
  | none => s

/-- The blocking thread of `pipewire_node_id` as a fold over its event
trace. -/
def runCamera (evs : List CameraEv) : OneshotState :=
  evs.foldl OneshotState.step .init

/-- The value a single event would send. -/
def CameraEv.msg : CameraEv → Option Nat
  | .cb i => some i
  | .fail => none

/-- `pipewire_node_id` (camera.rs lines 132-153): the async side runs
`receiver.await.ok().flatten()` — the sent value if one was sent,
`None` when the sender was dropped without sending. -/
def pipewire_node_id (evs : List CameraEv) : Option Nat :=
  (runCamera evs).channel.getD none

end Ashpd

open Ashpd

/-- C5: `SetOn::from_str` returns `Ok(Lockscreen)`, `Ok(Background)`,
`Ok(Both)` exactly on the inputs "Lockscreen", "Background", "Both"
respectively, and `Err(Error::ParseError _)` on every other string: the
parse fails if and only if the input is none of the three enum strings. -/
theorem setOn_from_str_spec (s : String) :
    (SetOn.from_str s = .ok .Lockscreen ↔ s = "Lockscreen") ∧
    (SetOn.from_str s = .ok .Background ↔ s = "Background") ∧
    (SetOn.from_str s = .ok .Both ↔ s = "Both") ∧
    ((∃ msg, SetOn.from_str s = .error (.ParseError msg)) ↔
      (s ≠ "Lockscreen" ∧ s ≠ "Background" ∧ s ≠ "Both")) := by
  unfold SetOn.from_str
  by_cases h1 : s = "Lockscreen" <;> by_cases h2 : s = "Background" <;>
    by_cases h3 : s = "Both" <;>
    simp_all

/-- C8: round-trip on `SetOn`: `Display`, `AsRef<str>` and
`From<SetOn> for &'static str` produce the same string for every value,
and `SetOn::from_str` applied to that string returns the value back. -/
theorem setOn_roundtrip (v : SetOn) :
    v.display = v.as_ref ∧ v.as_ref = v.into_static_str ∧
    SetOn.from_str v.display = .ok v := by
  cases v <;> simp [SetOn.display, SetOn.as_ref, SetOn.into_static_str,
    SetOn.from_str]

/-- Mapping dot-to-underscore over a list of digit characters leaves it
unchanged, since a digit is never `.`. -/
theorem map_underscore_of_digits (l : List Char) (h : ∀ c ∈ l, c.isDigit) :
    l.map (fun c => if c = '.' then '_' else c) = l := by
  induction l with
  | nil => rfl
  | cons c cs ih =>
    have hc : c.isDigit := h c (by simp)
    have hne : c ≠ '.' := by
      intro e
      subst e
      exact absurd hc (by decide)
    simp only [List.map_cons, if_neg hne]
    rw [ih fun x hx => h x (List.mem_cons_of_mem _ hx)]

/-- C1: the Response Mapper on a status-0 signal returns the successful
decode of the payload, and on decode failure the distinct
`ResponseError`, never a success; on status 1 it returns
`Error::Cancelled` for every payload and every decoder (the payload is
never decoded); on status 2 it returns `Error::Response` with the raw
code. -/
theorem response_map_spec {T : Type} (decode : Payload → Option T)
    (payload : Payload) :
    (∀ t, decode payload = some t →
      Response.map decode 0 payload = .ok t) ∧
    (decode payload = none →
      Response.map decode 0 payload = .error .ResponseError ∧
      ∀ t, Response.map decode 0 payload ≠ .ok t) ∧
    Response.map decode 1 payload = .error .Cancelled ∧
    Response.map decode 2 payload = .error (.Response 2) := by
  refine ⟨fun t ht => ?_, fun hn => ?_, ?_, ?_⟩ <;>
    simp [Response.map, *]

/-- C1 witness: the mapper evaluated at status 0 with a succeeding and
a failing decoder, and at statuses 1 and 2, on concrete payloads. -/
theorem response_map_spec_witness :
    Response.map List.head? 0 ([7] : Payload) = .ok 7 ∧
    Response.map List.head? 0 ([] : Payload) = .error .ResponseError ∧
    Response.map List.head? 1 ([9] : Payload) = .error .Cancelled ∧
    Response.map List.head? 2 ([] : Payload) = .error (.Response 2) :=
  ⟨(response_map_spec List.head? ([7] : Payload)).1 7 rfl,
   ((response_map_spec List.head? ([] : Payload)).2.1 rfl).1,
   (response_map_spec List.head? ([9] : Payload)).2.2.1,
   (response_map_spec List.head? ([] : Payload)).2.2.2⟩

/-- C2: for every unique bus identity of the form `:N.M` (N, M digit
strings) and every token, `predict_path` yields the fixed request
object path, then the identity with the leading colon stripped and
every `.` replaced by `_`, then the token; in particular the path
predicted for identity `:1.42` and token `ashpd_1` is
`/org/freedesktop/portal/desktop/request/1_42/ashpd_1`. -/
theorem predict_path_spec (n m t : List Char)
    (hn : ∀ c ∈ n, c.isDigit) (hm : ∀ c ∈ m, c.isDigit) :
    predict_path (':' :: (n ++ '.' :: m)) t
      = requestBasePath ++ ('/' :: ((n ++ '_' :: m) ++ ('/' :: t))) ∧
    predict_path ":1.42".data "ashpd_1".data
      = "/org/freedesktop/portal/desktop/request/1_42/ashpd_1".data := by
  constructor
  · unfold predict_path sanitize_sender
    simp only [List.map_append, List.map_cons]
    rw [map_underscore_of_digits n hn, map_underscore_of_digits m hm]
    simp
  · decide

/-- C2 witness: the template instantiated at identity `:1.42` with a
concrete token. -/
theorem predict_path_spec_witness :
    predict_path (':' :: (['1'] ++ '.' :: ['4', '2'])) "ashpd_1".data
      = requestBasePath
          ++ ('/' :: ((['1'] ++ '_' :: ['4', '2']) ++ ('/' :: "ashpd_1".data))) :=
  (predict_path_spec ['1'] ['4', '2'] "ashpd_1".data
    (by decide) (by decide)).1

/-- C3: the single-slot buffer loses no wakeup: a result delivered
before the waiter starts consuming is still observed by the consume; the
slot is then consumed, so a second read yields nothing (the waiter reads
exactly once per request); and the buffer capacity is exactly one — a
second delivery is dropped. -/
theorem slot_no_lost_wakeup {α : Type} (a b : α) :
    (Slot.empty.deliver a).consume = (some a, Slot.consumed) ∧
    ((Slot.empty.deliver a).consume.2.consume).1 = none ∧
    (Slot.empty.deliver a).deliver b = Slot.filled a :=
  ⟨rfl, rfl, rfl⟩

/-- C4: every portal operation's bus method call (screenshot, pick
color, the two wallpaper calls, and the three file-chooser calls)
passes the serialized options dict as its trailing argument, and each of
the six options types serializes its `handle_token` field into the
outgoing payload. -/
theorem options_trailing_handle_token
    (id : WindowIdentifier) (fd : Nat) (uri title : String)
    (so : ScreenshotOptions) (co : ColorOptions) (wo : WallpaperOptions)
    (oo : OpenFileOptions) (fo : SaveFileOptions) (mo : SaveFilesOptions) :
    (("handle_token", .str so.handle_token) ∈ so.serialize ∧
     ("handle_token", .str co.handle_token) ∈ co.serialize ∧
     ("handle_token", .str wo.handle_token) ∈ wo.serialize ∧
     ("handle_token", .str oo.handle_token) ∈ oo.serialize ∧
     ("handle_token", .str fo.handle_token) ∈ fo.serialize ∧
     ("handle_token", .str mo.handle_token) ∈ mo.serialize) ∧
    (screenshot_args id so).getLast? = some (.dict so.serialize) ∧
    (pick_color_args id co).getLast? = some (.dict co.serialize) ∧
    (set_wallpaper_file_args id fd wo).getLast? = some (.dict wo.serialize) ∧
    (set_wallpaper_uri_args id uri wo).getLast? = some (.dict wo.serialize) ∧
    (open_file_args id title oo).getLast? = some (.dict oo.serialize) ∧
    (save_file_args id title fo).getLast? = some (.dict fo.serialize) ∧
    (save_files_args id title mo).getLast? = some (.dict mo.serialize) := by
  refine ⟨⟨?_, ?_, ?_, ?_, ?_, ?_⟩, ?_, ?_, ?_, ?_, ?_, ?_, ?_⟩ <;>
    simp [ScreenshotOptions.serialize, ColorOptions.serialize,
      WallpaperOptions.serialize, OpenFileOptions.serialize,
      SaveFileOptions.serialize, SaveFilesOptions.serialize,
      screenshot_args, pick_color_args, set_wallpaper_file_args,
      set_wallpaper_uri_args, open_file_args, save_file_args,
      save_files_args]

/-- C7: every chained builder setter returns the request by value and
changes only its own target field: `ScreenshotRequest::modal`,
`::interactive`, `::identifier` and `WallpaperRequest::show_preview`,
`::set_on`, `::identifier` each set their field and leave the window
identifier, the other option fields and the handle token unchanged. -/
theorem builder_setters_frame (r : ScreenshotRequest) (w : WallpaperRequest)
    (m b : Bool) (v : SetOn) (id : WindowIdentifier) :
    ((r.modal m).options.modal = some m ∧
     (r.modal m).options.interactive = r.options.interactive ∧
     (r.modal m).options.handle_token = r.options.handle_token ∧
     (r.modal m).identifier = r.identifier) ∧
    ((r.interactive b).options.interactive = some b ∧
     (r.interactive b).options.modal = r.options.modal ∧
     (r.interactive b).options.handle_token = r.options.handle_token ∧
     (r.interactive b).identifier = r.identifier) ∧
    ((r.identifier' id).identifier = id ∧
     (r.identifier' id).options = r.options) ∧
    ((w.show_preview b).options.show_preview = some b ∧
     (w.show_preview b).options.set_on = w.options.set_on ∧
     (w.show_preview b).options.handle_token = w.options.handle_token ∧
     (w.show_preview b).identifier = w.identifier) ∧
    ((w.set_on v).options.set_on = some v ∧
     (w.set_on v).options.show_preview = w.options.show_preview ∧
     (w.set_on v).options.handle_token = w.options.handle_token ∧
     (w.set_on v).identifier = w.identifier) ∧
    ((w.identifier' id).identifier = id ∧
     (w.identifier' id).options = w.options) :=
  ⟨⟨rfl, rfl, rfl, rfl⟩, ⟨rfl, rfl, rfl, rfl⟩, ⟨rfl, rfl⟩,
   ⟨rfl, rfl, rfl, rfl⟩, ⟨rfl, rfl, rfl, rfl⟩, ⟨rfl, rfl⟩⟩

/-- C9: on every decoded `SelectedFiles` value, `uris()` is exactly the
decoded uris list, and `choices()` is the decoded choices list when the
optional field is present and the empty slice when it is absent — both
total, never an error. -/
theorem selected_files_accessors (us : List String)
    (cs : List (String × String)) (c : Option (List (String × String))) :
    (SelectedFiles.mk us (some cs)).choices' = cs ∧
    (SelectedFiles.mk us none).choices' = [] ∧
    (SelectedFiles.mk us c).uris = us :=
  ⟨rfl, rfl, rfl⟩

/-- Mapping `cstring_new` over a list of NUL-free byte sequences
NUL-terminates each of them. -/
theorem traverse_cstring_ok (ps : List (List Nat)) (h : ∀ q ∈ ps, 0 ∉ q) :
    traverseOption cstring_new ps = some (ps.map (· ++ [0])) := by
  induction ps with
  | nil => rfl
  | cons p ps ih =>
    have hp : 0 ∉ p := h p (by simp)
    simp [traverseOption, cstring_new, hp,
      ih fun q hq => h q (List.mem_cons_of_mem _ hq)]

/-- Mapping `cstring_new` over a list with a NUL-containing member
fails. -/
theorem traverse_cstring_fail (ps : List (List Nat)) (h : ∃ q ∈ ps, 0 ∈ q) :
    traverseOption cstring_new ps = none := by
  induction ps with
  | nil => simp at h
  | cons p ps ih =>
    by_cases hp : 0 ∈ p
    · simp [traverseOption, cstring_new, hp]
    · obtain ⟨q, hq, hq0⟩ := h
      rcases List.mem_cons.mp hq with hqp | hqs
      · exact absurd (hqp ▸ hq0) hp
      · simp [traverseOption, cstring_new, hp, ih ⟨q, hqs, hq0⟩]

/-- C10: the path-accepting file-chooser setters panic (modelled as
`none`) exactly when a supplied path's byte sequence contains a NUL
byte, and otherwise store exactly the path's bytes followed by a single
appended NUL terminator; `set_files` does so for each listed path. -/
theorem path_setters_nul_spec (r : SaveFilesRequest) (s : SaveFileRequest)
    (p : List Nat) (ps : List (List Nat)) :
    (0 ∈ p →
      r.set_current_folder p = none ∧
      s.set_current_folder p = none ∧
      s.set_current_file p = none) ∧
    (0 ∉ p →
      r.set_current_folder p = some
        { r with options := { r.options with current_folder := some (p ++ [0]) } } ∧
      s.set_current_folder p = some
        { s with options := { s.options with current_folder := some (p ++ [0]) } } ∧
      s.set_current_file p = some
        { s with options := { s.options with current_file := some (p ++ [0]) } }) ∧
    ((∃ q ∈ ps, 0 ∈ q) → r.set_files ps = none) ∧
    ((∀ q ∈ ps, 0 ∉ q) →
      r.set_files ps = some
        { r with options := { r.options with files := some (ps.map (· ++ [0])) } }) := by
  refine ⟨fun hp => ?_, fun hp => ?_, fun hps => ?_, fun hps => ?_⟩
  · exact ⟨by simp [SaveFilesRequest.set_current_folder, cstring_new, hp],
      by simp [SaveFileRequest.set_current_folder, cstring_new, hp],
      by simp [SaveFileRequest.set_current_file, cstring_new, hp]⟩
  · exact ⟨by simp [SaveFilesRequest.set_current_folder, cstring_new, hp],
      by simp [SaveFileRequest.set_current_folder, cstring_new, hp],
      by simp [SaveFileRequest.set_current_file, cstring_new, hp]⟩
  · simp [SaveFilesRequest.set_files, traverse_cstring_fail ps hps]
  · simp [SaveFilesRequest.set_files, traverse_cstring_ok ps hps]

/-- A concrete `SaveFilesRequest` for evaluating the path setters. -/
def someSaveFilesRequest : SaveFilesRequest :=
  ⟨"", "", ⟨"t", none, none, [], none, none⟩⟩

/-- A concrete `SaveFileRequest` for evaluating the path setters. -/
def someSaveFileRequest : SaveFileRequest :=
  ⟨"", "", ⟨"t", none, none, none, none, none, [], none, []⟩⟩

/-- C10 witness: a path containing a NUL byte makes
`set_current_folder` panic, a NUL-free path is stored NUL-terminated,
and `set_files` NUL-terminates each listed path. -/
theorem path_setters_nul_spec_witness :
    someSaveFileRequest.set_current_folder [0, 65] = none ∧
    someSaveFileRequest.set_current_folder [47, 97] = some
      { someSaveFileRequest with options :=
        { someSaveFileRequest.options with
            current_folder := some ([47, 97] ++ [0]) } } ∧
    someSaveFilesRequest.set_files [[104], [105]] = some
      { someSaveFilesRequest with options :=
        { someSaveFilesRequest.options with
            files := some ([[104], [105]].map (· ++ [0])) } } :=
  ⟨((path_setters_nul_spec someSaveFilesRequest someSaveFileRequest
      [0, 65] []).1 (by decide)).2.1,
   ((path_setters_nul_spec someSaveFilesRequest someSaveFileRequest
      [47, 97] []).2.1 (by decide)).2.1,
   (path_setters_nul_spec someSaveFilesRequest someSaveFileRequest
      [] [[104], [105]]).2.2.2 (by decide)⟩

/-- Once the sender slot is empty, no later event changes the shared
state. -/
theorem foldl_step_frozen (evs : List CameraEv) (s : OneshotState)
    (h : s.sender = none) : evs.foldl OneshotState.step s = s := by
  induction evs with
  | nil => rfl
  | cons e es ih =>
    have hs : OneshotState.step s e = s := by
      unfold OneshotState.step
      rw [h]
    rw [List.foldl_cons, hs, ih]

/-- C6: across every event trace of the blocking thread, at most one
send crosses the one-shot channel (the sender is taken out of the
mutex-guarded `Option` before any send), and the async side's single
read of the rendezvous returns `Some(node_id)` exactly when the first
event is a matching camera callback, and `None` when the loop fails
first or the sender is dropped without sending. -/
theorem camera_oneshot_spec (evs : List CameraEv) :
    (runCamera evs).sends ≤ 1 ∧
    pipewire_node_id evs = evs.head?.bind CameraEv.msg := by
  cases evs with
  | nil => exact ⟨Nat.zero_le 1, rfl⟩
  | cons e es =>
    have h1 : runCamera (e :: es) = OneshotState.init.step e := by
      unfold runCamera
      rw [List.foldl_cons]
      exact foldl_step_frozen es _ (by cases e <;> rfl)
    refine ⟨?_, ?_⟩
    · rw [h1]
      cases e <;> simp [OneshotState.step, OneshotState.init]
    · unfold pipewire_node_id
      rw [h1]
      cases e <;> rfl
